import Mathlib

/-!
Shallow embedding of the rm_dir utility (src/main.rs) and verification of
its specification claims.

Modelling choices:
- Rust strings are Lean strings; the relevant operations str::trim and
  str::to_lowercase are embedded as functions on the underlying character
  list (rustTrim, rustToLower), matching their Rust semantics.
- The injectable input source of get_user_confirmation is one read_line
  result: either the line that was read (EOF reads as the empty line) or
  an I/O error message.  The output sink and the global stdout are kept
  apart, because the Rust function writes the prompt to the sink parameter
  but the informational lines of the force path via println to stdout.
- The gate is embedded as a trace of I/O events plus an outcome that is
  either a returned string or a process-terminating Rust panic with its
  message.
- The external recursive delete primitive std::fs::remove_dir_all is a
  parameter: a function from an abstract filesystem state to a result and
  a new state.  The repository wrapper remove_dir_all delegates to it.
- Durations (std::time::Instant elapsed) are nonnegative by construction
  in Rust; they are embedded as a nanosecond count (Nat).  The f32
  rendering of as_secs_f32 is abstracted by an exact decimal rendering.
-/

namespace RmDir

/-- Embedding of Rust str::trim on a character list: drop whitespace from
both ends. -/
def trimChars (l : List Char) : List Char :=
  ((l.dropWhile Char.isWhitespace).reverse.dropWhile Char.isWhitespace).reverse

/-- Embedding of Rust str::trim (as used in get_user_confirmation and in
main before the confirmation is compared). -/
def rustTrim (s : String) : String :=
  String.mk (trimChars s.data)

/-- Embedding of Rust str::to_lowercase (as used in main). -/
def rustToLower (s : String) : String :=
  String.mk (s.data.map Char.toLower)

/-- I/O events performed by the confirmation gate, in order: a write to the
injected output sink, a flush of that sink, a blocking line read from the
injected input source, or a println to the global stdout. -/
inductive GEvent where
  | writeSink (s : String)
  | flush
  | readLine
  | printOut (line : String)
deriving DecidableEq, Repr

/-- How the gate finishes: a string returned to the caller, or a Rust
panic (process termination) with its message. -/
inductive GateOutcome where
  | ret (s : String)
  | panicked (msg : String)
deriving DecidableEq, Repr

/-- The prompt formatted by get_user_confirmation for the interactive
path.  It names the path exactly as provided and has no trailing
newline. -/
def promptFor (dir : String) : String :=
  "Are you sure you want to delete all files and folders in " ++ dir ++ "? (y/n) "

/-- The two informational lines printed by the force path. -/
def forceLines (dir : String) : List String :=
  ["Running delete without confirmation.",
   "Deleting all files and folders in " ++ dir ++ "."]

/-- Embedding of get_user_confirmation (src/main.rs lines 41-73).
Force path: two println calls to global stdout, return of the literal
string y, no use of the sink and no read.  Interactive path: write the
prompt to the sink, flush, read one line; on a successful read return the
trimmed line, on a read error panic with the formatted message. -/
def get_user_confirmation (source_dir : String) (force : Bool)
    (input : Except String String) : List GEvent × GateOutcome :=
  if force then
    ((forceLines source_dir).map GEvent.printOut, .ret "y")
  else
    match input with
    | .ok line =>
        ([.writeSink (promptFor source_dir), .flush, .readLine],
         .ret (rustTrim line))
    | .error e =>
        ([.writeSink (promptFor source_dir), .flush, .readLine],
         .panicked ("Failed to read user input " ++ e))

/-- The repository wrapper remove_dir_all (src/main.rs lines 97-99): it
delegates to the external primitive std::fs::remove_dir_all, here a
parameter over an abstract filesystem state. -/
def remove_dir_all {σ : Type} (prim : σ → Except String Unit × σ) (fs : σ) :
    Except String Unit × σ :=
  prim fs

/-- Exact decimal rendering of a nanosecond duration in seconds,
abstracting the f32 rounding of as_secs_f32. -/
def secsStr (nanos : Nat) : String :=
  let frac := toString (nanos % 1000000000)
  toString (nanos / 1000000000) ++ "." ++
    String.mk (List.replicate (9 - frac.length) '0') ++ frac

/-- The measured duration in seconds as a rational number. -/
def durationSecs (nanos : Nat) : ℚ :=
  (nanos : ℚ) / 1000000000

/-- Result of handle_confirmation: the lines printed to stdout, how often
the delete primitive was invoked, the resulting filesystem state, and the
returned Result value. -/
structure HandleResult (σ : Type) where
  lines : List String
  deleteCalls : Nat
  fs : σ
  result : Except String Unit

/-- Embedding of handle_confirmation (src/main.rs lines 75-95).  If the
confirmation is not the literal y, print the aborting line and return Ok
without touching the filesystem.  Otherwise invoke the delete primitive
once, print either the success line or the error line, then always the
Done line with the measured elapsed time, and return the delete result. -/
def handle_confirmation {σ : Type} (confirmation : String)
    (dir_to_remove : String) (prim : σ → Except String Unit × σ) (fs : σ)
    (elapsedNanos : Nat) : HandleResult σ :=
  if confirmation ≠ "y" then
    { lines := ["Aborting as user input '" ++ confirmation ++ "' was not 'y'"],
      deleteCalls := 0, fs := fs, result := .ok () }
  else
    let r := remove_dir_all prim fs
    let reportLine :=
      match r.1 with
      | .ok _ => "Removed all files and folders from " ++ dir_to_remove
      | .error e => "Error: " ++ e
    { lines := [reportLine, "Done in " ++ secsStr elapsedNanos ++ "s"],
      deleteCalls := 1, fs := r.2, result := r.1 }

/-- The two-valued confirmation decision of the specification, derived
from the comparison handle_confirmation performs on the normalized
input. -/
inductive ConfirmationDecision where
  | Affirmed
  | Declined
deriving DecidableEq, Repr

/-- The decision taken for a normalized confirmation string: Affirmed
exactly on the literal y. -/
def gateDecision (normalized : String) : ConfirmationDecision :=
  if normalized = "y" then .Affirmed else .Declined

/-- Observable result of one process invocation (the main function after
path canonicalization): the gate event trace, the normalized confirmation
handed to handle_confirmation (none if the process panicked first), the
lines handle_confirmation printed, the delete invocation count, the final
filesystem state, the delete result (none if no attempt ran), the panic
message if any, and the process exit code. -/
structure RunResult (σ : Type) where
  gateEvents : List GEvent
  confirmation : Option String
  handleLines : List String
  deleteCalls : Nat
  fs : σ
  deleteResult : Option (Except String Unit)
  panicMsg : Option String
  exitCode : Nat

/-- Embedding of main (src/main.rs lines 22-39) after canonicalization:
call the gate, normalize its returned string with trim and to_lowercase,
call handle_confirmation, and discard its result (the binding _result),
so the process exits with status 0 unless a panic occurred (Rust default
panic exit status 101). -/
def mainFlow {σ : Type} (dir_to_remove : String) (force : Bool)
    (input : Except String String) (prim : σ → Except String Unit × σ)
    (fs : σ) (elapsedNanos : Nat) : RunResult σ :=
  let g := get_user_confirmation dir_to_remove force input
  match g.2 with
  | .panicked msg =>
      { gateEvents := g.1, confirmation := none, handleLines := [],
        deleteCalls := 0, fs := fs, deleteResult := none,
        panicMsg := some msg, exitCode := 101 }
  | .ret s =>
      let confirmation := rustToLower (rustTrim s)
      let h := handle_confirmation confirmation dir_to_remove prim fs
        elapsedNanos
      { gateEvents := g.1, confirmation := some confirmation,
        handleLines := h.lines, deleteCalls := h.deleteCalls, fs := h.fs,
        deleteResult := some h.result, panicMsg := none, exitCode := 0 }

/-- The decision observable from a run: the gate decision on the
normalized confirmation, if the run got that far. -/
def runDecision {σ : Type} (r : RunResult σ) : Option ConfirmationDecision :=
  r.confirmation.map gateDecision

/-- Lines printed to the global stdout within a gate event trace. -/
def printOuts : List GEvent → List String
  | [] => []
  | .printOut l :: es => l :: printOuts es
  | .writeSink _ :: es => printOuts es
  | .flush :: es => printOuts es
  | .readLine :: es => printOuts es

/-- Strings written to the injected output sink within a gate event
trace. -/
def sinkWrites : List GEvent → List String
  | [] => []
  | .writeSink s :: es => s :: sinkWrites es
  | .printOut _ :: es => sinkWrites es
  | .flush :: es => sinkWrites es
  | .readLine :: es => sinkWrites es

/-- Number of reads from the injected input source within a gate event
trace. -/
def readCount : List GEvent → Nat
  | [] => 0
  | .readLine :: es => readCount es + 1
  | .writeSink _ :: es => readCount es
  | .flush :: es => readCount es
  | .printOut _ :: es => readCount es

/-- A delete primitive that always fails, modelling a target path that
does not exist. -/
def failPrim : Unit → Except String Unit × Unit :=
  fun u => (.error "No such file or directory (os error 2)", u)

/-- A delete primitive that always succeeds. -/
def okPrim : Unit → Except String Unit × Unit :=
  fun u => (.ok (), u)

/-- Dropping while a predicate holds is idempotent. -/
theorem dropWhile_idem {α : Type} (p : α → Bool) (l : List α) :
    (l.dropWhile p).dropWhile p = l.dropWhile p := by
  cases h : l.dropWhile p with
  | nil => simp
  | cons x xs =>
      have hx := List.head?_dropWhile_not p l
      rw [h] at hx
      simp only [List.head?_cons] at hx
      rw [List.dropWhile_cons_of_neg]
      simp [hx]

/-- For a list already stripped of its leading run satisfying p, stripping
the trailing run (via reverse) leaves the head intact, so a further
leading strip is the identity. -/
theorem dropWhile_reverse_dropWhile {α : Type} (p : α → Bool) (A : List α)
    (hA : A.dropWhile p = A) :
    ((A.reverse.dropWhile p).reverse).dropWhile p
      = (A.reverse.dropWhile p).reverse := by
  have hsplit : (A.reverse.dropWhile p).reverse
      ++ (A.reverse.takeWhile p).reverse = A := by
    rw [← List.reverse_append, List.takeWhile_append_dropWhile,
      List.reverse_reverse]
  cases hBc : (A.reverse.dropWhile p).reverse with
  | nil => simp
  | cons b bs =>
      have hb : p b = false := by
        have hx := List.head?_dropWhile_not p A
        rw [hA] at hx
        have hAeq := hsplit
        rw [hBc] at hAeq
        rw [← hAeq, List.cons_append] at hx
        simpa using hx
      simp [List.dropWhile_cons_of_neg, hb]

/-- trimChars is idempotent. -/
theorem trimChars_idem (l : List Char) : trimChars (trimChars l) = trimChars l := by
  unfold trimChars
  rw [dropWhile_reverse_dropWhile Char.isWhitespace (l.dropWhile Char.isWhitespace)
    (dropWhile_idem Char.isWhitespace l)]
  rw [List.reverse_reverse, dropWhile_idem]

/-- rustTrim is idempotent. -/
theorem rustTrim_idem (s : String) : rustTrim (rustTrim s) = rustTrim s := by
  cases s with
  | mk data => simp [rustTrim, trimChars_idem]

/-- Claim C1, counterexample: a forced run whose delete attempt fails
still exits with status 0, because main discards the result of
handle_confirmation; the claim says the exit status is non-zero when the
delete attempt fails. -/
theorem C1_counterexample :
    (mainFlow "/tmp/x" true (.ok "") failPrim () 5).deleteResult
        = some (Except.error "No such file or directory (os error 2)")
    ∧ (mainFlow "/tmp/x" true (.ok "") failPrim () 5).exitCode = 0 :=
  ⟨rfl, rfl⟩

/-- Claim C1, amended: the process exits with status 0 on successful
deletion, on a clean decline, and also when the delete attempt fails
(main discards the result of handle_confirmation); it exits with the
panic status 101 exactly when the interactive input read fails before
the gate could decide. -/
theorem C1_exit_status {σ : Type} (d : String) (force : Bool)
    (input : Except String String) (prim : σ → Except String Unit × σ)
    (fs : σ) (n : Nat) :
    (mainFlow d force input prim fs n).exitCode =
      match force, input with
      | false, .error _ => 101
      | false, .ok _ => 0
      | true, _ => 0 := by
  cases force <;> cases input <;> rfl

/-- Claim C2, counterexample: on a forced run nothing at all is written
to the injected output sink (the informational lines go to the global
stdout instead), while the claim says the two informational lines are
written to the output sink. -/
theorem C2_counterexample :
    sinkWrites (get_user_confirmation "/tmp/x" true (.ok "n")).1 = []
    ∧ sinkWrites (get_user_confirmation "/tmp/x" true (.ok "n")).1
        ≠ forceLines "/tmp/x" := by
  exact ⟨rfl, by decide⟩

/-- Claim C2, amended: for every request with force = true, the gate
returns the literal y (hence the decision is Affirmed) without performing
any read on the input source, writes nothing to the injected output sink,
and prints exactly the two informational lines, in order, to the global
stdout, regardless of any content in the input source. -/
theorem C2_force_gate (d : String) (input : Except String String) :
    (get_user_confirmation d true input).2 = GateOutcome.ret "y"
    ∧ readCount (get_user_confirmation d true input).1 = 0
    ∧ sinkWrites (get_user_confirmation d true input).1 = []
    ∧ printOuts (get_user_confirmation d true input).1 = forceLines d
    ∧ gateDecision (rustToLower (rustTrim "y")) = ConfirmationDecision.Affirmed :=
  ⟨rfl, rfl, rfl, rfl, rfl⟩

/-- Claim C3: for every request with force = false and a successful read,
the gate reads exactly one line, the confirmation handed downstream is the
line trimmed and lowercased, and the decision is Affirmed if and only if
that normalized value is the literal y; every other normalized value,
the empty string included, yields Declined. -/
theorem C3_interactive_decision {σ : Type} (d line : String)
    (prim : σ → Except String Unit × σ) (fs : σ) (n : Nat) :
    readCount (mainFlow d false (.ok line) prim fs n).gateEvents = 1
    ∧ (mainFlow d false (.ok line) prim fs n).confirmation
        = some (rustToLower (rustTrim line))
    ∧ (runDecision (mainFlow d false (.ok line) prim fs n)
        = some ConfirmationDecision.Affirmed
          ↔ rustToLower (rustTrim line) = "y")
    ∧ (runDecision (mainFlow d false (.ok line) prim fs n)
        = some ConfirmationDecision.Declined
          ↔ rustToLower (rustTrim line) ≠ "y") := by
  have hc : rustToLower (rustTrim (rustTrim line)) = rustToLower (rustTrim line) := by
    rw [rustTrim_idem]
  refine ⟨rfl, ?_, ?_, ?_⟩
  · show some (rustToLower (rustTrim (rustTrim line))) = _
    rw [hc]
  · show some (gateDecision (rustToLower (rustTrim (rustTrim line)))) = some _ ↔ _
    rw [hc]
    by_cases h : rustToLower (rustTrim line) = "y" <;> simp [gateDecision, h]
  · show some (gateDecision (rustToLower (rustTrim (rustTrim line)))) = some _ ↔ _
    rw [hc]
    by_cases h : rustToLower (rustTrim line) = "y" <;> simp [gateDecision, h]

/-- Claim C4, counterexample: when the read from the input source fails,
the gate does not return an explicit failure value to the caller; it
panics (process termination) with the formatted message, while the claim
says an explicit InputFailure result value is returned and process
termination never used. -/
theorem C4_counterexample :
    (get_user_confirmation "/tmp/x" false (.error "unexpected end of file")).2
      = GateOutcome.panicked "Failed to read user input unexpected end of file" :=
  rfl

/-- Claim C4, amended: when the read from the input source fails, the
gate panics with the message Failed to read user input followed by the
error, the process terminates with the panic exit status 101, and no
delete is attempted. -/
theorem C4_read_failure {σ : Type} (d e : String)
    (prim : σ → Except String Unit × σ) (fs : σ) (n : Nat) :
    (mainFlow d false (.error e) prim fs n).panicMsg
        = some ("Failed to read user input " ++ e)
    ∧ (mainFlow d false (.error e) prim fs n).deleteCalls = 0
    ∧ (mainFlow d false (.error e) prim fs n).deleteResult = none
    ∧ (mainFlow d false (.error e) prim fs n).exitCode = 101 :=
  ⟨rfl, rfl, rfl, rfl⟩

/-- Claim C5: after every delete attempt, exactly one of the success line
or the error line is printed (which one is decided by the outcome of the
delete primitive), and then, always, the Done line carrying the measured
elapsed duration in seconds. -/
theorem C5_report_lines {σ : Type} (d : String)
    (prim : σ → Except String Unit × σ) (fs : σ) (n : Nat) :
    (handle_confirmation "y" d prim fs n).lines =
      [(match (prim fs).1 with
        | .ok _ => "Removed all files and folders from " ++ d
        | .error e => "Error: " ++ e),
       "Done in " ++ secsStr n ++ "s"] :=
  rfl

/-- Claim C6: whenever the decision is Declined, the delete primitive is
not invoked, the filesystem state is unchanged, the operation returns Ok
(a successful no-op), and the aborting line naming the normalized input
is printed. -/
theorem C6_decline_noop {σ : Type} (c d : String)
    (prim : σ → Except String Unit × σ) (fs : σ) (n : Nat)
    (h : gateDecision c = ConfirmationDecision.Declined) :
    (handle_confirmation c d prim fs n).deleteCalls = 0
    ∧ (handle_confirmation c d prim fs n).fs = fs
    ∧ (handle_confirmation c d prim fs n).result = Except.ok ()
    ∧ (handle_confirmation c d prim fs n).lines
        = ["Aborting as user input '" ++ c ++ "' was not 'y'"] := by
  have hc : c ≠ "y" := by
    intro hy
    rw [hy] at h
    simp [gateDecision] at h
  simp [handle_confirmation, hc]

/-- Witness for C6 at the concrete declined input n. -/
theorem C6_decline_noop_witness :
    (handle_confirmation "n" "/tmp/x" okPrim () 7).deleteCalls = 0
    ∧ (handle_confirmation "n" "/tmp/x" okPrim () 7).fs = ()
    ∧ (handle_confirmation "n" "/tmp/x" okPrim () 7).result = Except.ok ()
    ∧ (handle_confirmation "n" "/tmp/x" okPrim () 7).lines
        = ["Aborting as user input '" ++ "n" ++ "' was not 'y'"] :=
  C6_decline_noop "n" "/tmp/x" okPrim () 7 (by decide)

/-- Claim C7: for every request with force = false, exactly one prompt
line naming the path exactly as provided, with no trailing newline (its
last character is a space), is written to the output sink, the sink is
flushed, and both happen before the single read from the input source. -/
theorem C7_prompt_protocol (d : String) (input : Except String String) :
    (get_user_confirmation d false input).1
      = [GEvent.writeSink (promptFor d), GEvent.flush, GEvent.readLine]
    ∧ sinkWrites (get_user_confirmation d false input).1 = [promptFor d]
    ∧ readCount (get_user_confirmation d false input).1 = 1
    ∧ promptFor d
        = "Are you sure you want to delete all files and folders in "
          ++ d ++ "? (y/n) "
    ∧ (promptFor d).data.getLast? = some ' ' := by
  have hlast : (promptFor d).data.getLast? = some ' ' := by
    have hdata : (promptFor d).data =
        ("Are you sure you want to delete all files and folders in ".data
          ++ d.data) ++ "? (y/n) ".data := rfl
    rw [hdata, List.getLast?_append]
    rfl
  cases input with
  | ok line => exact ⟨rfl, rfl, rfl, rfl, hlast⟩
  | error e => exact ⟨rfl, rfl, rfl, rfl, hlast⟩

/-- Claim C8: when the delete primitive reports an error, the outcome has
the error as its result (succeeded = false with the error detail
populated), the error line and the Done line carrying the measured
duration are printed, and the measured duration in seconds is
non-negative. -/
theorem C8_failure_outcome {σ : Type} (d e : String)
    (prim : σ → Except String Unit × σ) (fs : σ) (n : Nat)
    (h : (prim fs).1 = Except.error e) :
    (handle_confirmation "y" d prim fs n).result = Except.error e
    ∧ (handle_confirmation "y" d prim fs n).lines
        = ["Error: " ++ e, "Done in " ++ secsStr n ++ "s"]
    ∧ 0 ≤ durationSecs n := by
  refine ⟨?_, ?_, ?_⟩
  · exact h
  · show [(match (prim fs).1 with
        | .ok _ => "Removed all files and folders from " ++ d
        | .error e => "Error: " ++ e),
       "Done in " ++ secsStr n ++ "s"] = _
    rw [h]
  · unfold durationSecs
    positivity

/-- Witness for C8 at a concrete failing delete primitive. -/
theorem C8_failure_outcome_witness :
    (handle_confirmation "y" "/tmp/x" failPrim () 3).result
        = Except.error "No such file or directory (os error 2)"
    ∧ (handle_confirmation "y" "/tmp/x" failPrim () 3).lines
        = ["Error: " ++ "No such file or directory (os error 2)",
           "Done in " ++ secsStr 3 ++ "s"]
    ∧ 0 ≤ durationSecs 3 :=
  C8_failure_outcome "/tmp/x" "No such file or directory (os error 2)"
    failPrim () 3 rfl

/-- Claim C9: per process invocation the delete primitive is invoked
exactly once when the decision is Affirmed and never otherwise,
regardless of the outcome the primitive produces (no retry). -/
theorem C9_single_attempt {σ : Type} (d : String) (force : Bool)
    (input : Except String String) (prim : σ → Except String Unit × σ)
    (fs : σ) (n : Nat) :
    (mainFlow d force input prim fs n).deleteCalls
      = if runDecision (mainFlow d force input prim fs n)
            = some ConfirmationDecision.Affirmed then 1 else 0 := by
  cases force with
  | true =>
      show (handle_confirmation (rustToLower (rustTrim "y")) d prim fs n).deleteCalls
        = if some (gateDecision (rustToLower (rustTrim "y")))
              = some ConfirmationDecision.Affirmed then 1 else 0
      rfl
  | false =>
      cases input with
      | error e => rfl
      | ok line =>
          show (handle_confirmation (rustToLower (rustTrim (rustTrim line))) d prim fs n).deleteCalls
            = if some (gateDecision (rustToLower (rustTrim (rustTrim line))))
                  = some ConfirmationDecision.Affirmed then 1 else 0
          by_cases h : rustToLower (rustTrim (rustTrim line)) = "y" <;>
            simp [handle_confirmation, gateDecision, h]

/-- Claim C10: with force = true the gate returns exactly the literal y
without consuming any input, and the whole downstream run (normalized
confirmation, printed report lines, delete invocations, filesystem state,
result and exit status) is identical to an interactive run whose input
line trims and lowercases to y. -/
theorem C10_force_refinement {σ : Type} (d line : String)
    (input : Except String String) (prim : σ → Except String Unit × σ)
    (fs : σ) (n : Nat) (h : rustToLower (rustTrim line) = "y") :
    (get_user_confirmation d true input).2 = GateOutcome.ret "y"
    ∧ readCount (get_user_confirmation d true input).1 = 0
    ∧ (mainFlow d true input prim fs n).confirmation
        = (mainFlow d false (.ok line) prim fs n).confirmation
    ∧ (mainFlow d true input prim fs n).handleLines
        = (mainFlow d false (.ok line) prim fs n).handleLines
    ∧ (mainFlow d true input prim fs n).deleteCalls
        = (mainFlow d false (.ok line) prim fs n).deleteCalls
    ∧ (mainFlow d true input prim fs n).fs
        = (mainFlow d false (.ok line) prim fs n).fs
    ∧ (mainFlow d true input prim fs n).deleteResult
        = (mainFlow d false (.ok line) prim fs n).deleteResult
    ∧ (mainFlow d true input prim fs n).exitCode
        = (mainFlow d false (.ok line) prim fs n).exitCode := by
  have h1 : rustToLower (rustTrim "y") = "y" := rfl
  have h2 : rustToLower (rustTrim (rustTrim line)) = "y" := by
    rw [rustTrim_idem]
    exact h
  have key : handle_confirmation (rustToLower (rustTrim "y")) d prim fs n
      = handle_confirmation (rustToLower (rustTrim (rustTrim line))) d prim fs n := by
    rw [h1, h2]
  refine ⟨rfl, rfl, ?_, ?_, ?_, ?_, ?_, rfl⟩
  · show some (rustToLower (rustTrim "y"))
      = some (rustToLower (rustTrim (rustTrim line)))
    rw [h1, h2]
  · exact congrArg HandleResult.lines key
  · exact congrArg HandleResult.deleteCalls key
  · exact congrArg HandleResult.fs key
  · show some (handle_confirmation (rustToLower (rustTrim "y")) d prim fs n).result
      = some (handle_confirmation (rustToLower (rustTrim (rustTrim line))) d prim fs n).result
    rw [key]

/-- Witness for C10 at a concrete input line that normalizes to y. -/
theorem C10_force_refinement_witness :
    (get_user_confirmation "/tmp/x" true (.ok "ignored")).2 = GateOutcome.ret "y"
    ∧ readCount (get_user_confirmation "/tmp/x" true (.ok "ignored")).1 = 0
    ∧ (mainFlow "/tmp/x" true (.ok "ignored") okPrim () 2).confirmation
        = (mainFlow "/tmp/x" false (.ok " Y \n") okPrim () 2).confirmation
    ∧ (mainFlow "/tmp/x" true (.ok "ignored") okPrim () 2).handleLines
        = (mainFlow "/tmp/x" false (.ok " Y \n") okPrim () 2).handleLines
    ∧ (mainFlow "/tmp/x" true (.ok "ignored") okPrim () 2).deleteCalls
        = (mainFlow "/tmp/x" false (.ok " Y \n") okPrim () 2).deleteCalls
    ∧ (mainFlow "/tmp/x" true (.ok "ignored") okPrim () 2).fs
        = (mainFlow "/tmp/x" false (.ok " Y \n") okPrim () 2).fs
    ∧ (mainFlow "/tmp/x" true (.ok "ignored") okPrim () 2).deleteResult
        = (mainFlow "/tmp/x" false (.ok " Y \n") okPrim () 2).deleteResult
    ∧ (mainFlow "/tmp/x" true (.ok "ignored") okPrim () 2).exitCode
        = (mainFlow "/tmp/x" false (.ok " Y \n") okPrim () 2).exitCode :=
  C10_force_refinement "/tmp/x" " Y \n" (.ok "ignored") okPrim () 2 (by decide)

end RmDir
